import Mathlib

/-!
Verification development for the Scratcha CAPTCHA backend.

The definitions below are shallow embeddings of the Python sources:
  app/services/captcha_service.py   (CaptchaService.generateCaptchaProblem,
                                     CaptchaService.verifyCaptchaAnswer)
  app/services/rule_check_service.py (RuleCheckService checks)
  app/services/behavior_service.py  (run_behavior_verification, _fix_time_units_to_ms)
  app/core/ks3.py                   (download_behavior_chunks)
  app/models/captcha_log.py         (CaptchaLog table columns)
  app/core/config.py                (Settings.CAPTCHA_TIMEOUT_MINUTES)

Database rows are records, the transactional store is an explicit `DbState`
threaded through the operations, machine floats are modelled by `ℚ`, and the
effectful collaborators (the model inference, the object store, the shuffle,
the missing `check_captcha_scratch_rules` body) are oracle parameters.
-/

namespace Scratcha

/-- An HTTPException: status code plus detail string. -/
structure HErr where
  status : Nat
  detail : String
deriving DecidableEq

/-- app/models/captcha_log.py: enum CaptchaResult. -/
inductive CaptchaResult
  | SUCCESS
  | FAIL
  | TIMEOUT
deriving DecidableEq

/-- The `.value` of the Python enum member. -/
def CaptchaResult.value : CaptchaResult → String
  | .SUCCESS => "success"
  | .FAIL => "fail"
  | .TIMEOUT => "timeout"

/-- One row of the captcha_session table.  `problemAnswer` stands for the
answer reached through the ORM relation `session.captchaProblem.answer`. -/
structure CaptchaSessionRow where
  id : Nat
  keyId : Nat
  clientToken : String
  createdAtMs : Int
  problemAnswer : String
deriving DecidableEq

/-- One row of the captcha_log table, carrying the fields passed to
`captchaRepo.createCaptchaLog` in app/services/captcha_service.py
(result, latency_ms, is_correct, ml_confidence, ml_is_bot). -/
structure CaptchaLogRow where
  sessionId : Nat
  keyId : Nat
  result : CaptchaResult
  latency_ms : Int
  is_correct : Bool
  ml_confidence : Option ℚ
  ml_is_bot : Option Bool
deriving DecidableEq

/-- One call to `usageStatsRepo.incrementVerificationResult(keyId, result, latency)`. -/
structure UsageEvent where
  keyId : Nat
  result : String
  latency_ms : Int
deriving DecidableEq

/-- The transactional store visible to the two CaptchaService operations:
the caller's user token balance, the session table, the log table, the
total-request counter and the verification-result counter stream. -/
structure DbState where
  userToken : Int
  sessions : List CaptchaSessionRow
  logs : List CaptchaLogRow
  totalRequests : Nat
  usage : List UsageEvent
deriving DecidableEq

/-- Declarative metadata of one SQLAlchemy `Column(...)` as written in the
model file (SQLAlchemy defaults: `unique` and `primary_key` are off unless
given). -/
structure SqlColumn where
  pyName : String
  dbName : String
  nullable : Bool
  unique : Bool
  primaryKey : Bool
  foreignKey : Option String
deriving DecidableEq

/-- app/models/captcha_log.py lines 35-41: the `sessionId` column of
`CaptchaLog` — `Column("session_id", Integer, ForeignKey("captcha_session.id",
ondelete="CASCADE"), nullable=False, comment=...)`.  No `unique=True` and no
`primary_key=True` appear, so both keep the SQLAlchemy default `False`. -/
def captchaLog_sessionId_column : SqlColumn :=
  { pyName := "sessionId"
    dbName := "session_id"
    nullable := false
    unique := false
    primaryKey := false
    foreignKey := some "captcha_session.id" }

/-- The full column list of the `captcha_log` table from
app/models/captcha_log.py. -/
def captchaLog_columns : List SqlColumn :=
  [ { pyName := "id", dbName := "id", nullable := false, unique := false,
      primaryKey := true, foreignKey := none },
    { pyName := "keyId", dbName := "api_key_id", nullable := true, unique := false,
      primaryKey := false, foreignKey := some "api_key.id" },
    captchaLog_sessionId_column,
    { pyName := "result", dbName := "result", nullable := false, unique := false,
      primaryKey := false, foreignKey := none },
    { pyName := "latency_ms", dbName := "latency_ms", nullable := false, unique := false,
      primaryKey := false, foreignKey := none },
    { pyName := "created_at", dbName := "created_at", nullable := false, unique := false,
      primaryKey := false, foreignKey := none } ]

/-- app/core/config.py line 36: `CAPTCHA_TIMEOUT_MINUTES: int = 3`. -/
def CAPTCHA_TIMEOUT_MINUTES : Int := 3

/-- `timedelta(minutes=settings.CAPTCHA_TIMEOUT_MINUTES)` expressed in
milliseconds, the resolution at which the embedding keeps time. -/
def captchaTimeoutMs : Int := CAPTCHA_TIMEOUT_MINUTES * 60 * 1000

/-! Behavior analysis (app/services/behavior_service.py). -/

/-- The summary statistics returned by `seq_stats`. -/
structure SeqStats where
  oob_rate_canvas : ℚ
  oob_rate_wrapper : ℚ
  speed_mean : ℚ
  n_events : Nat
  roi_has_canvas : Bool
  roi_has_wrapper : Bool
deriving DecidableEq

/-- The dictionary returned by `run_behavior_verification`: on the failure
paths `ok` is `false` and nothing else is present. -/
structure BehaviorResult where
  ok : Bool
  bot_prob : Option ℚ
  threshold : Option ℚ
  verdict : Option String
  stats : Option SeqStats
deriving DecidableEq

/-- `run_behavior_verification(meta, events)`.  `modelLoaded` is the outcome
of `get_model()` (the lazily loaded torch artifact), `window` the outcome of
`build_window_7ch` (`none` when the extractor returned `X is None`) together
with its `seq_stats`, and `prob` the temperature-scaled sigmoid probability
produced by the CNN forward pass — an oracle, since the float model is not
reproduced here; `thr` is `get_threshold()`.  The verdict comparison
`"bot" if prob >= thr else "human"` is translated exactly. -/
def run_behavior_verification (modelLoaded : Bool) (window : Option SeqStats)
    (prob thr : ℚ) : BehaviorResult :=
  if modelLoaded = false then
    { ok := false, bot_prob := none, threshold := none, verdict := none, stats := none }
  else
    match window with
    | none =>
      { ok := false, bot_prob := none, threshold := none, verdict := none, stats := none }
    | some st =>
      { ok := true, bot_prob := some prob, threshold := some thr,
        verdict := some (if thr ≤ prob then "bot" else "human"), stats := some st }

/-! Timestamp unit correction (behavior_service._fix_time_units_to_ms). -/

/-- `np.diff`: consecutive differences `ts[i+1] - ts[i]`. -/
def npDiff (ts : List ℚ) : List ℚ :=
  List.zipWith (fun a b => a - b) ts.tail ts

/-- Insertion of an element into a sorted list (helper for the median). -/
def insertSorted (a : ℚ) : List ℚ → List ℚ
  | [] => [a]
  | b :: t => if a ≤ b then a :: b :: t else b :: insertSorted a t

/-- Insertion sort on rationals (the sorted view `np.median` works on). -/
def sortQ : List ℚ → List ℚ
  | [] => []
  | a :: t => insertSorted a (sortQ t)

/-- `np.median` on a nonempty list: middle element of the sorted list for odd
length, mean of the two middle elements for even length. -/
def npMedian (l : List ℚ) : ℚ :=
  let s := sortQ l
  if l.length % 2 = 1 then s.getD (l.length / 2) 0
  else (s.getD (l.length / 2 - 1) 0 + s.getD (l.length / 2) 0) / 2

/-- The strictly positive consecutive differences `diffs = diffs[diffs > 0]`. -/
def posDiffs (ts : List ℚ) : List ℚ :=
  (npDiff ts).filter (fun d => decide (0 < d))

/-- behavior_service.py lines 171-184: `_fix_time_units_to_ms` (the source's
`diffs` and `med` locals are inlined as `posDiffs ts` and
`npMedian (posDiffs ts)`). -/
def _fix_time_units_to_ms (ts : List ℚ) : List ℚ :=
  if ts.length < 2 then ts
  else if posDiffs ts = [] then ts
  else if npMedian (posDiffs ts) ≤ 1 / 100 then ts.map (fun t => t * 1000)
  else if 1000 ≤ npMedian (posDiffs ts) then ts.map (fun t => t / 1000)
  else ts

/-! Chunk reconstruction (app/core/ks3.py download_behavior_chunks). -/

/-- One behavioral event as in app/schemas/event.py EventData. -/
structure EventData where
  t : Option Int
  type : String
  x_raw : Option ℚ
  y_raw : Option ℚ
deriving DecidableEq

/-- One stored chunk object.  The object key embeds
`chunk_{chunk_index}_{total_chunks}`, and `events` is the decoded payload. -/
structure EventChunk where
  chunk_index : Nat
  total_chunks : Nat
  events : List EventData
deriving DecidableEq

/-- The sort key comparison used on the listed chunk keys:
`key=lambda k: int(k.split("chunk_")[1].split("_")[0])`. -/
def chunkLE (a b : EventChunk) : Bool :=
  decide (a.chunk_index ≤ b.chunk_index)

/-- ks3.py lines 132-177, download_behavior_chunks: the store listing is the
input list; the chunks are sorted by the index embedded in their key and their
event payloads are concatenated. -/
def download_behavior_chunks (chunks : List EventChunk) : List EventData :=
  ((chunks.mergeSort chunkLE).map EventChunk.events).flatten

/-! Rule checks (app/services/rule_check_service.py). -/

/-- The verify response body (result, message, and the optional confidence
and verdict fields attached by the service). -/
structure CaptchaVerificationResponse where
  result : String
  message : String
  confidence : Option ℚ
  verdict : Option String
deriving DecidableEq

/-- The chunk metadata dictionary as consulted by the service: only its
`device` entry is read (`session_meta.get("device")`). -/
structure MetaInfo where
  device : Option String
deriving DecidableEq

/-- rule_check_service.py lines 24-40: `check_time_constraint`.  Fires when
`latency < timedelta(seconds=0.5)`, writing a FAIL log (no ML fields), an
increment of the fail counter and a commit; abstains otherwise. -/
def check_time_constraint (s : CaptchaSessionRow) (latencyMs : Int) (st : DbState) :
    Option (CaptchaVerificationResponse × DbState) :=
  if latencyMs < 500 then
    some ({ result := "fail", message := "너무 빠르게 캡챠를 시도했습니다.",
            confidence := none, verdict := none },
          { st with
              logs := st.logs ++
                [{ sessionId := s.id, keyId := s.keyId, result := .FAIL,
                   latency_ms := latencyMs, is_correct := false,
                   ml_confidence := none, ml_is_bot := none }],
              usage := st.usage ++
                [{ keyId := s.keyId, result := CaptchaResult.FAIL.value,
                   latency_ms := latencyMs }] })
  else none

/-- `behavior_result.get("stats", {}).get("oob_rate_canvas", 0.0)`. -/
def brStatOobCanvas (br : BehaviorResult) : ℚ :=
  (br.stats.map SeqStats.oob_rate_canvas).getD 0

/-- rule_check_service.py lines 42-68: `check_no_scratching`.  Fires when the
canvas out-of-bounds rate equals 1, writing a FAIL log with
`ml_is_bot=True`, incrementing the fail counter, committing, and answering
with verdict `"bot"`; abstains otherwise. -/
def check_no_scratching (s : CaptchaSessionRow) (latencyMs : Int)
    (br : BehaviorResult) (confidence : Option ℚ) (st : DbState) :
    Option (CaptchaVerificationResponse × DbState) :=
  if brStatOobCanvas br = 1 then
    some ({ result := CaptchaResult.FAIL.value, message := "스크래치 없이 정답을 클릭했습니다.",
            confidence := confidence, verdict := some "bot" },
          { st with
              logs := st.logs ++
                [{ sessionId := s.id, keyId := s.keyId, result := .FAIL,
                   latency_ms := latencyMs, is_correct := false,
                   ml_confidence := confidence, ml_is_bot := some true }],
              usage := st.usage ++
                [{ keyId := s.keyId, result := CaptchaResult.FAIL.value,
                   latency_ms := latencyMs }] })
  else none

/-- rule_check_service.py lines 92-98: `check_device_type`.  On touch-device
metadata the classifier outcome is to be replaced by a presumptive human
verdict at confidence 0.5. -/
def check_device_type (sessionMeta : Option MetaInfo) :
    Option CaptchaVerificationResponse :=
  match sessionMeta with
  | none => none
  | some m =>
    if m.device = some "touch" then
      some { result := "success", message := "터치 디바이스로 확인되었습니다.",
             confidence := some (1 / 2), verdict := some "human" }
    else none

/-! The verification orchestrator (captcha_service.CaptchaService.verifyCaptchaAnswer). -/

/-- Which collaborators a verify call actually invoked: the
`check_captcha_scratch_rules` rule check, the behavior classifier
(`run_behavior_verification`), and the `check_device_type` rule check. -/
structure Trace where
  scratch_rules : Bool
  classifier : Bool
  device_check : Bool
deriving DecidableEq

/-- The observable outcome of one verify call: the HTTP-level response (an
error rolls the transaction back), the resulting store, the invocation trace
and whether `uploadBehaviorDataTask` was enqueued. -/
structure VerifyOut where
  resp : Except HErr CaptchaVerificationResponse
  state : DbState
  trace : Trace
  enqueuedUpload : Bool

/-- captcha_service.py lines 259-274: the terminal fusion of answer
correctness with the (possibly device-overridden) verdict. -/
def verifyDecision (is_correct : Bool) (verdict : Option String) :
    CaptchaResult × String :=
  if is_correct = true ∧ verdict = some "human" then
    (.SUCCESS, "캡챠 검증에 성공했습니다.")
  else if is_correct = false then
    (.FAIL, "캡챠 문제를 틀렸습니다.")
  else
    (.FAIL, "캡챠 검증에 실패했습니다.")

/-- captcha_service.py lines 220-296: the scored (non-timeout) tail of
`verifyCaptchaAnswer`, entered holding the session row with no prior log and
within the timeout.  `sessionMeta`/`chunkEventsNonempty` are the outcome of
`download_behavior_chunks`; `behaviorResult` is what
`run_behavior_verification` returns when invoked on that data. -/
def verifyScored (st : DbState) (s : CaptchaSessionRow) (answer : String)
    (latencyMs : Int) (sessionMeta : Option MetaInfo) (chunkEventsNonempty : Bool)
    (behaviorResult : BehaviorResult) (enableKS3 : Bool) : VerifyOut :=
  let classifierInvoked := sessionMeta.isSome && chunkEventsNonempty
  let cv : Option ℚ × Option String :=
    if classifierInvoked = true then
      (if behaviorResult.ok = true then (behaviorResult.bot_prob, behaviorResult.verdict)
       else (none, none))
    else (none, none)
  let dv := check_device_type sessionMeta
  let confidence : Option ℚ := match dv with
    | some d => d.confidence
    | none => cv.1
  let verdict : Option String := match dv with
    | some d => d.verdict
    | none => cv.2
  let is_correct : Bool := answer == s.problemAnswer
  let rm := verifyDecision is_correct verdict
  let ml_is_bot : Bool := verdict == some "bot"
  { resp := .ok { result := rm.1.value, message := rm.2,
                  confidence := confidence, verdict := verdict },
    state :=
      { st with
          logs := st.logs ++
            [{ sessionId := s.id, keyId := s.keyId, result := rm.1,
               latency_ms := latencyMs, is_correct := is_correct,
               ml_confidence := confidence, ml_is_bot := some ml_is_bot }],
          usage := st.usage ++
            [{ keyId := s.keyId, result := rm.1.value, latency_ms := latencyMs }] },
    trace := { scratch_rules := true, classifier := classifierInvoked,
               device_check := true },
    enqueuedUpload := (rm.1 == CaptchaResult.SUCCESS) && enableKS3 }

/-- The TIMEOUT log row written by the timeout branch
(captcha_service.py lines 205-213). -/
def timeoutLogRow (s : CaptchaSessionRow) (latencyMs : Int) : CaptchaLogRow :=
  { sessionId := s.id, keyId := s.keyId, result := .TIMEOUT,
    latency_ms := latencyMs, is_correct := false,
    ml_confidence := none, ml_is_bot := none }

/-- captcha_service.py lines 191-218: the part of `verifyCaptchaAnswer` run
once the session row is locked and known to carry no log yet.  The body of
`rule_checker.check_captcha_scratch_rules` is absent from the snapshot (its
return value is discarded at the call site), so its only observable effect —
either returning or raising an HTTPException that aborts and rolls back — is
the oracle `scratchRaises`. -/
def verifyLocked (st : DbState) (s : CaptchaSessionRow) (answer : String)
    (nowMs : Int) (scratchRaises : Option HErr) (sessionMeta : Option MetaInfo)
    (chunkEventsNonempty : Bool) (behaviorResult : BehaviorResult)
    (enableKS3 : Bool) : VerifyOut :=
  let latencyMs : Int := nowMs - s.createdAtMs
  match scratchRaises with
  | some e =>
    { resp := .error e, state := st,
      trace := { scratch_rules := true, classifier := false, device_check := false },
      enqueuedUpload := false }
  | none =>
    if captchaTimeoutMs < latencyMs then
      { resp := .ok { result := "timeout", message := "캡챠 세션이 만료되었습니다.",
                      confidence := none, verdict := none },
        state :=
          { st with
              logs := st.logs ++ [timeoutLogRow s latencyMs],
              usage := st.usage ++
                [{ keyId := s.keyId, result := CaptchaResult.TIMEOUT.value,
                   latency_ms := latencyMs }] },
        trace := { scratch_rules := true, classifier := false, device_check := false },
        enqueuedUpload := false }
    else
      verifyScored st s answer latencyMs sessionMeta chunkEventsNonempty
        behaviorResult enableKS3

/-- captcha_service.py lines 151-305: `CaptchaService.verifyCaptchaAnswer`.
Looks the session up by client token under a row lock (404 when absent),
answers 400 when a log already exists, and otherwise proceeds to the locked
path.  Raised HTTPExceptions roll the transaction back, so on every error the
returned state is the input state. -/
def verifyCaptchaAnswer (st : DbState) (clientToken : String) (answer : String)
    (nowMs : Int) (scratchRaises : Option HErr) (sessionMeta : Option MetaInfo)
    (chunkEventsNonempty : Bool) (behaviorResult : BehaviorResult)
    (enableKS3 : Bool) : VerifyOut :=
  match st.sessions.find? (fun r => r.clientToken == clientToken) with
  | none =>
    { resp := .error { status := 404, detail := "유효하지 않은 클라이언트 토큰입니다." },
      state := st,
      trace := { scratch_rules := false, classifier := false, device_check := false },
      enqueuedUpload := false }
  | some s =>
    if st.logs.any (fun l2 => l2.sessionId == s.id) then
      { resp := .error { status := 400, detail := "이미 검증된 토큰입니다." },
        state := st,
        trace := { scratch_rules := false, classifier := false, device_check := false },
        enqueuedUpload := false }
    else
      verifyLocked st s answer nowMs scratchRaises sessionMeta
        chunkEventsNonempty behaviorResult enableKS3

/-! Session issuing (captcha_service.CaptchaService.generateCaptchaProblem). -/

/-- One row of the captcha_problem table (fields the service reads). -/
structure ProblemRow where
  id : Nat
  answer : String
  wrongAnswer1 : String
  wrongAnswer2 : String
  wrongAnswer3 : String
  prompt : String
  imageUrl : String
deriving DecidableEq

/-- The API key object handed to the service by the router dependency. -/
structure ApiKeyRow where
  id : Nat
  userId : Nat
deriving DecidableEq

/-- The problem response body. -/
structure CaptchaProblemResponse where
  clientToken : String
  imageUrl : String
  prompt : String
  options : List String
  correctAnswer : Option String
deriving DecidableEq

/-- captcha_service.py lines 44-149: `CaptchaService.generateCaptchaProblem`.
`userFound` is the locked user lookup outcome (`st.userToken` is that user's
balance), `selectedProblem` the outcome of `getRandomActiveProblem`,
`s3BaseUrl` the `KS3_BASE_URL` setting, `shuffledOptions` the result of
`random.shuffle` over the four answer options, and `envTest` whether
`settings.ENV == "test"`.  Every raised HTTPException rolls back, so the
error branches return the input state; the single commit persists the token
debit, the new session and the request counter together. -/
def generateCaptchaProblem (st : DbState) (apiKey : ApiKeyRow) (userFound : Bool)
    (selectedProblem : Option ProblemRow) (s3BaseUrl : Option String)
    (newSessionId : Nat) (clientToken : String) (nowMs : Int)
    (shuffledOptions : List String) (envTest : Bool) :
    Except HErr CaptchaProblemResponse × DbState :=
  if userFound = false ∨ st.userToken ≤ 0 then
    (.error { status := 402, detail := "API 토큰이 부족합니다." }, st)
  else
    match selectedProblem with
    | none => (.error { status := 503, detail := "활성화된 캡차 문제가 없습니다." }, st)
    | some p =>
      match s3BaseUrl with
      | none =>
        (.error { status := 500, detail := "KS3_BASE_URL 환경 변수가 설정되지 않았습니다." }, st)
      | some base =>
        (.ok { clientToken := clientToken,
               imageUrl := base ++ "/" ++ p.imageUrl,
               prompt := p.prompt,
               options := shuffledOptions,
               correctAnswer := if envTest = true then some p.answer else none },
         { st with
             userToken := st.userToken - 1,
             sessions := st.sessions ++
               [{ id := newSessionId, keyId := apiKey.id, clientToken := clientToken,
                  createdAtMs := nowMs, problemAnswer := p.answer }],
             totalRequests := st.totalRequests + 1 })

/-! Concrete fixtures used to exercise the operations. -/

/-- A session issued at time 0 whose problem's answer is "cat". -/
def sessW : CaptchaSessionRow :=
  { id := 1, keyId := 7, clientToken := "tok", createdAtMs := 0,
    problemAnswer := "cat" }

/-- A behavior analysis that produced no ML signal (`ok` false). -/
def brNone : BehaviorResult :=
  { ok := false, bot_prob := none, threshold := none, verdict := none,
    stats := none }

/-- A log already persisted for `sessW`. -/
def logW : CaptchaLogRow :=
  { sessionId := 1, keyId := 7, result := .SUCCESS, latency_ms := 2000,
    is_correct := true, ml_confidence := none, ml_is_bot := some false }

/-- A store holding `sessW` with its log already written. -/
def stLogged : DbState :=
  { userToken := 5, sessions := [sessW], logs := [logW], totalRequests := 1,
    usage := [] }

/-- A store holding `sessW` with no log yet. -/
def stFresh : DbState :=
  { userToken := 5, sessions := [sessW], logs := [], totalRequests := 1,
    usage := [] }

/-- Mouse-device chunk metadata. -/
def metaMouse : MetaInfo := { device := some "mouse" }

/-- Scenario-A behavioral statistics: canvas OOB rate 0.3. -/
def statsA : SeqStats :=
  { oob_rate_canvas := 3 / 10, oob_rate_wrapper := 1 / 10, speed_mean := 3 / 2,
    n_events := 40, roi_has_canvas := true, roi_has_wrapper := true }

/-- Scenario-B behavioral statistics: canvas OOB rate 1.0 (every sample out
of bounds). -/
def statsOob1 : SeqStats :=
  { oob_rate_canvas := 1, oob_rate_wrapper := 1, speed_mean := 3 / 2,
    n_events := 40, roi_has_canvas := true, roi_has_wrapper := true }

/-- Chunk number 0 of a three-chunk stream. -/
def chunkW0 : EventChunk :=
  { chunk_index := 0, total_chunks := 3,
    events := [{ t := some 0, type := "pointerdown", x_raw := some 10, y_raw := some 20 }] }

/-- Chunk number 1 of a three-chunk stream. -/
def chunkW1 : EventChunk :=
  { chunk_index := 1, total_chunks := 3,
    events := [{ t := some 5, type := "moves", x_raw := none, y_raw := none }] }

/-- Chunk number 2 of a three-chunk stream. -/
def chunkW2 : EventChunk :=
  { chunk_index := 2, total_chunks := 3,
    events := [{ t := some 9, type := "click", x_raw := some 30, y_raw := some 40 }] }

/-! Theorems. -/

/-- C9: for every timestamp sequence with at least two elements and at least
one positive consecutive difference, letting `m` be the median of the
positive consecutive differences, `_fix_time_units_to_ms` multiplies by 1000
when `m ≤ 0.01`, divides by 1000 when `m ≥ 1000`, and leaves the sequence
unchanged otherwise; sequences with fewer than two elements or no positive
difference come back unchanged. -/
theorem fix_time_units_spec (ts : List ℚ) :
    (ts.length < 2 → _fix_time_units_to_ms ts = ts) ∧
    (posDiffs ts = [] → _fix_time_units_to_ms ts = ts) ∧
    (2 ≤ ts.length → posDiffs ts ≠ [] →
      (npMedian (posDiffs ts) ≤ 1 / 100 →
        _fix_time_units_to_ms ts = ts.map (fun t => t * 1000)) ∧
      (1000 ≤ npMedian (posDiffs ts) →
        _fix_time_units_to_ms ts = ts.map (fun t => t / 1000)) ∧
      (1 / 100 < npMedian (posDiffs ts) → npMedian (posDiffs ts) < 1000 →
        _fix_time_units_to_ms ts = ts)) := by
  unfold _fix_time_units_to_ms
  refine ⟨fun h => by rw [if_pos h], fun h => ?_, fun h2 hne => ?_⟩
  · by_cases h1 : ts.length < 2
    · rw [if_pos h1]
    · rw [if_neg h1, if_pos h]
  · have h1 : ¬ ts.length < 2 := by omega
    refine ⟨fun hm => ?_, fun hm => ?_, fun hm1 hm2 => ?_⟩
    · rw [if_neg h1, if_neg hne, if_pos hm]
    · have hA : ¬ npMedian (posDiffs ts) ≤ 1 / 100 := by
        intro hc
        have h3 : (1000 : ℚ) ≤ 1 / 100 := le_trans hm hc
        norm_num at h3
      rw [if_neg h1, if_neg hne, if_neg hA, if_pos hm]
    · have hA : ¬ npMedian (posDiffs ts) ≤ 1 / 100 := not_le.mpr hm1
      have hB : ¬ (1000 : ℚ) ≤ npMedian (posDiffs ts) := not_le.mpr hm2
      rw [if_neg h1, if_neg hne, if_neg hA, if_neg hB]

/-- Witness for C9: the sequence `[0, 0.001, 0.002]` (seconds) has median
positive delta `0.001 ≤ 0.01` and is promoted to milliseconds. -/
theorem fix_time_units_spec_witness :
    2 ≤ ([0, 1 / 1000, 2 / 1000] : List ℚ).length ∧
    posDiffs [0, 1 / 1000, 2 / 1000] ≠ [] ∧
    _fix_time_units_to_ms [0, 1 / 1000, 2 / 1000] = [0, 1, 2] := by
  have hpd : posDiffs [0, 1 / 1000, 2 / 1000] = [1 / 1000, 1 / 1000] := by
    norm_num [posDiffs, npDiff, List.filter]
  have hmed : npMedian [(1 : ℚ) / 1000, 1 / 1000] = 1 / 1000 := by
    norm_num [npMedian, sortQ, insertSorted]
  refine ⟨by norm_num, by rw [hpd]; simp, ?_⟩
  have h := ((fix_time_units_spec [0, 1 / 1000, 2 / 1000]).2.2 (by norm_num)
    (by rw [hpd]; simp)).1 (by rw [hpd, hmed]; norm_num)
  rw [h]
  norm_num

/-- The chunk-key comparison is transitive. -/
theorem chunkLE_trans : ∀ (a b c : EventChunk),
    chunkLE a b → chunkLE b c → chunkLE a c := by
  intro a b c hab hbc
  simp only [chunkLE, decide_eq_true_eq] at *
  omega

/-- The chunk-key comparison is total. -/
theorem chunkLE_total : ∀ (a b : EventChunk), chunkLE a b || chunkLE b a := by
  intro a b
  simp only [chunkLE, Bool.or_eq_true, decide_eq_true_eq]
  omega

/-- Two lists of chunks that are permutations of one another, both sorted by
chunk index, with pairwise-distinct indices, are equal. -/
theorem sorted_nodup_perm_eq :
    ∀ (l1 l2 : List EventChunk), l1.Perm l2 →
      List.Pairwise (fun a b => chunkLE a b) l1 →
      List.Pairwise (fun a b => chunkLE a b) l2 →
      (l1.map EventChunk.chunk_index).Nodup → l1 = l2
  | [], l2, hp, _, _, _ => hp.nil_eq
  | _ :: _, [], hp, _, _, _ => absurd hp (by simp)
  | a :: t1, b :: t2, hp, hs1, hs2, hn => by
    have hab : a = b := by
      by_contra hne
      have hbmem : b ∈ a :: t1 := hp.mem_iff.mpr (List.mem_cons_self b t2)
      have hamem : a ∈ b :: t2 := hp.mem_iff.mp (List.mem_cons_self a t1)
      have hb1 : b ∈ t1 := by
        rcases List.mem_cons.mp hbmem with h | h
        · exact absurd h.symm hne
        · exact h
      have ha2 : a ∈ t2 := by
        rcases List.mem_cons.mp hamem with h | h
        · exact absurd h hne
        · exact h
      have hle1 : chunkLE a b := (List.pairwise_cons.mp hs1).1 b hb1
      have hle2 : chunkLE b a := (List.pairwise_cons.mp hs2).1 a ha2
      have hidx : a.chunk_index = b.chunk_index := by
        simp only [chunkLE, decide_eq_true_eq] at hle1 hle2
        omega
      exact hne (List.inj_on_of_nodup_map hn (List.mem_cons_self a t1) hbmem hidx)
    subst hab
    have hn1 : (t1.map EventChunk.chunk_index).Nodup := by
      rw [List.map_cons] at hn
      exact hn.of_cons
    have ht : t1 = t2 :=
      sorted_nodup_perm_eq t1 t2 hp.cons_inv
        (List.pairwise_cons.mp hs1).2 (List.pairwise_cons.mp hs2).2 hn1
    rw [ht]

/-- C8: reconstruction of a session's event stream is order-independent —
for any two delivery orders of the same set of chunks (distinct chunk
indices), `download_behavior_chunks` yields identical event lists, because
it sorts by the embedded chunk index before concatenating. -/
theorem download_behavior_chunks_order_independent (l1 l2 : List EventChunk)
    (hperm : l1.Perm l2)
    (hnodup : (l1.map EventChunk.chunk_index).Nodup) :
    download_behavior_chunks l1 = download_behavior_chunks l2 := by
  have hs1 := @List.sorted_mergeSort _ chunkLE chunkLE_trans chunkLE_total l1
  have hs2 := @List.sorted_mergeSort _ chunkLE chunkLE_trans chunkLE_total l2
  have hp : (l1.mergeSort chunkLE).Perm (l2.mergeSort chunkLE) :=
    (List.mergeSort_perm l1 chunkLE).trans
      (hperm.trans (List.mergeSort_perm l2 chunkLE).symm)
  have hnd : ((l1.mergeSort chunkLE).map EventChunk.chunk_index).Nodup :=
    (((List.mergeSort_perm l1 chunkLE).map EventChunk.chunk_index).symm).nodup hnodup
  have heq := sorted_nodup_perm_eq _ _ hp hs1 hs2 hnd
  simp [download_behavior_chunks, heq]

/-- Witness for C8: chunks delivered in order (1,0,2) reconstruct the same
event list as chunks delivered in order (0,1,2). -/
theorem download_behavior_chunks_order_independent_witness :
    download_behavior_chunks [chunkW1, chunkW0, chunkW2] =
      download_behavior_chunks [chunkW0, chunkW1, chunkW2] :=
  download_behavior_chunks_order_independent _ _
    (List.Perm.swap chunkW0 chunkW1 [chunkW2])
    (by simp [chunkW0, chunkW1, chunkW2])

/-- The fusion decision never yields a TIMEOUT result. -/
theorem verifyDecision_value_ne_timeout (b : Bool) (v : Option String) :
    (verifyDecision b v).1.value ≠ "timeout" := by
  unfold verifyDecision
  split_ifs <;> simp [CaptchaResult.value]

/-- C1 counterexample: the `sessionId` column of the `captcha_log` model in
src/app/models/captcha_log.py carries no unique constraint (it is a plain
non-nullable foreign key), refuting the claim's "unique constraint on the
log's sessionId column". -/
theorem captchaLog_sessionId_no_unique_constraint :
    captchaLog_sessionId_column.unique = false ∧
    captchaLog_sessionId_column ∈ captchaLog_columns ∧
    captchaLog_sessionId_column.foreignKey = some "captcha_session.id" ∧
    captchaLog_sessionId_column.nullable = false := by
  refine ⟨rfl, ?_, rfl, rfl⟩
  simp [captchaLog_columns]

/-- C1 (amended): a verify call on a token whose session already has a log
answers the AlreadyVerified error (HTTP 400) and rolls back, writing nothing;
in the sequential semantics given by the session row lock and the fresh
log-existence recheck, the number of logs for the session never exceeds one
(no unique constraint on the sessionId column takes part in this). -/
theorem verify_at_most_one_log (st : DbState) (tok ans : String) (nowMs : Int)
    (sr : Option HErr) (sm : Option MetaInfo) (ch : Bool) (br : BehaviorResult)
    (ks3 : Bool) (s : CaptchaSessionRow)
    (hfind : st.sessions.find? (fun r => r.clientToken == tok) = some s)
    (hinv : st.logs.countP (fun l2 => l2.sessionId == s.id) ≤ 1) :
    (verifyCaptchaAnswer st tok ans nowMs sr sm ch br ks3).state.logs.countP
        (fun l2 => l2.sessionId == s.id) ≤ 1 ∧
    (st.logs.any (fun l2 => l2.sessionId == s.id) = true →
      (verifyCaptchaAnswer st tok ans nowMs sr sm ch br ks3).resp =
        .error { status := 400, detail := "이미 검증된 토큰입니다." } ∧
      (verifyCaptchaAnswer st tok ans nowMs sr sm ch br ks3).state = st) := by
  unfold verifyCaptchaAnswer
  rw [hfind]
  by_cases hlog : st.logs.any (fun l2 => l2.sessionId == s.id) = true
  · simp [hlog, hinv]
  · have hfalse : st.logs.any (fun l2 => l2.sessionId == s.id) = false :=
      Bool.eq_false_iff.mpr hlog
    have hcount : st.logs.countP (fun l2 => l2.sessionId == s.id) = 0 := by
      refine List.countP_eq_zero.mpr ?_
      intro a ha
      have h := List.any_eq_false.mp hfalse a ha
      simpa using h
    have hsingle : ∀ (x : CaptchaLogRow),
        List.countP (fun l2 => l2.sessionId == s.id) [x] ≤ 1 := by
      intro x
      simpa using List.countP_le_length (p := fun l2 => l2.sessionId == s.id) (l := [x])
    simp only [hfalse, Bool.false_eq_true, if_false]
    refine ⟨?_, fun hcontra => hcontra.elim⟩
    unfold verifyLocked
    cases sr with
    | some e => simpa using hinv
    | none =>
      dsimp only
      by_cases ht : captchaTimeoutMs < nowMs - s.createdAtMs
      · rw [if_pos ht]
        simp only [List.countP_append, hcount, Nat.zero_add]
        exact hsingle _
      · rw [if_neg ht]
        unfold verifyScored
        simp only [List.countP_append, hcount, Nat.zero_add]
        exact hsingle _

/-- Witness for C1: on a store whose session already carries a log, verify
answers 400 and changes nothing. -/
theorem verify_at_most_one_log_witness :
    (verifyCaptchaAnswer stLogged "tok" "cat" 2000 none none false brNone false).resp =
      .error { status := 400, detail := "이미 검증된 토큰입니다." } ∧
    (verifyCaptchaAnswer stLogged "tok" "cat" 2000 none none false brNone false).state =
      stLogged :=
  (verify_at_most_one_log stLogged "tok" "cat" 2000 none none false brNone false
    sessW (by decide) (by decide)).2 (by decide)

/-- C2 counterexample: at latency 180001 ms the verify call does answer
`{result:"timeout"}`, but the RuleCheckService scratch-rules check has
already been invoked on the way there (captcha_service.py line 202 runs
`rule_checker.check_captcha_scratch_rules` before the timeout test), so "the
classifier and the rule checks never invoked" is false as stated. -/
theorem verify_timeout_invokes_scratch_rules :
    (verifyCaptchaAnswer stFresh "tok" "cat" 180001 none none false brNone false).resp =
      .ok { result := "timeout", message := "캡챠 세션이 만료되었습니다.",
            confidence := none, verdict := none } ∧
    (verifyCaptchaAnswer stFresh "tok" "cat" 180001 none none false brNone false).trace.scratch_rules =
      true := by
  constructor <;> rfl

/-- C2 (amended): with the scratch-rules check passing, a verify on a valid,
not-yet-logged token whose latency exceeds 180000 ms writes a TIMEOUT log and
answers `{result:"timeout"}` without invoking the classifier or the
device-type rule check (the scratch-rules check, however, runs before the
timeout test); at latency not exceeding 180000 ms the attempt is scored
normally (a non-timeout result, with the device-type check reached). -/
theorem verify_timeout_boundary (st : DbState) (tok ans : String) (nowMs : Int)
    (sm : Option MetaInfo) (ch : Bool) (br : BehaviorResult) (ks3 : Bool)
    (s : CaptchaSessionRow)
    (hfind : st.sessions.find? (fun r => r.clientToken == tok) = some s)
    (hnolog : st.logs.any (fun l2 => l2.sessionId == s.id) = false) :
    (captchaTimeoutMs < nowMs - s.createdAtMs →
      (verifyCaptchaAnswer st tok ans nowMs none sm ch br ks3).resp =
        .ok { result := "timeout", message := "캡챠 세션이 만료되었습니다.",
              confidence := none, verdict := none } ∧
      (verifyCaptchaAnswer st tok ans nowMs none sm ch br ks3).state.logs =
        st.logs ++ [timeoutLogRow s (nowMs - s.createdAtMs)] ∧
      (verifyCaptchaAnswer st tok ans nowMs none sm ch br ks3).trace.classifier = false ∧
      (verifyCaptchaAnswer st tok ans nowMs none sm ch br ks3).trace.device_check = false ∧
      (verifyCaptchaAnswer st tok ans nowMs none sm ch br ks3).trace.scratch_rules = true) ∧
    (nowMs - s.createdAtMs ≤ captchaTimeoutMs →
      ∃ r, (verifyCaptchaAnswer st tok ans nowMs none sm ch br ks3).resp = .ok r ∧
        r.result ≠ "timeout" ∧
        (verifyCaptchaAnswer st tok ans nowMs none sm ch br ks3).trace.device_check = true) := by
  unfold verifyCaptchaAnswer
  rw [hfind]
  simp only [hnolog, Bool.false_eq_true, if_false]
  unfold verifyLocked
  dsimp only
  constructor
  · intro ht
    rw [if_pos ht]
    exact ⟨rfl, rfl, rfl, rfl, rfl⟩
  · intro ht
    rw [if_neg (not_lt.mpr ht)]
    unfold verifyScored
    exact ⟨_, rfl, verifyDecision_value_ne_timeout _ _, rfl⟩

/-- Witness for C2: the boundary behaviour on a concrete session issued at
time 0 — verify at 180001 ms answers timeout; verify at 179999 ms scores
normally. -/
theorem verify_timeout_boundary_witness :
    (verifyCaptchaAnswer stFresh "tok" "cat" 180001 none none false brNone false).resp =
      .ok { result := "timeout", message := "캡챠 세션이 만료되었습니다.",
            confidence := none, verdict := none } ∧
    (∃ r, (verifyCaptchaAnswer stFresh "tok" "cat" 179999 none none false brNone false).resp =
        .ok r ∧ r.result ≠ "timeout") := by
  constructor
  · exact ((verify_timeout_boundary stFresh "tok" "cat" 180001 none false brNone false
      sessW (by decide) (by decide)).1 (by decide)).1
  · obtain ⟨r, h1, h2, _⟩ := (verify_timeout_boundary stFresh "tok" "cat" 179999 none false
      brNone false sessW (by decide) (by decide)).2 (by decide)
    exact ⟨r, h1, h2⟩

/-- Dispatch: on a valid token with no prior log, a passing scratch check and
latency within the timeout, verify reduces to the scored tail. -/
theorem verifyCaptchaAnswer_scored_eq (st : DbState) (tok ans : String)
    (nowMs : Int) (sm : Option MetaInfo) (ch : Bool) (br : BehaviorResult)
    (ks3 : Bool) (s : CaptchaSessionRow)
    (hfind : st.sessions.find? (fun r => r.clientToken == tok) = some s)
    (hnolog : st.logs.any (fun l2 => l2.sessionId == s.id) = false)
    (hlat : nowMs - s.createdAtMs ≤ captchaTimeoutMs) :
    verifyCaptchaAnswer st tok ans nowMs none sm ch br ks3 =
      verifyScored st s ans (nowMs - s.createdAtMs) sm ch br ks3 := by
  unfold verifyCaptchaAnswer
  rw [hfind]
  simp only [hnolog, Bool.false_eq_true, if_false]
  unfold verifyLocked
  dsimp only
  rw [if_neg (not_lt.mpr hlat)]

/-- The scored tail with an available classifier result and non-touch
metadata: the response carries the classifier's verdict and probability and
the fusion decision on them. -/
theorem verifyScored_classifier_resp (st : DbState) (s : CaptchaSessionRow)
    (ans : String) (lat : Int) (m : MetaInfo) (stats : SeqStats) (p thr : ℚ)
    (ks3 : Bool) (hdev : m.device ≠ some "touch") :
    (verifyScored st s ans lat (some m) true
        (run_behavior_verification true (some stats) p thr) ks3).resp =
      .ok { result := (verifyDecision (ans == s.problemAnswer)
                        (some (if thr ≤ p then "bot" else "human"))).1.value,
            message := (verifyDecision (ans == s.problemAnswer)
                        (some (if thr ≤ p then "bot" else "human"))).2,
            confidence := some p,
            verdict := some (if thr ≤ p then "bot" else "human") } := by
  have hdv : check_device_type (some m) = none := by
    simp [check_device_type, hdev]
  unfold verifyScored run_behavior_verification
  rw [hdv]
  simp

/-- C3: in a non-timed-out verification in which no rule fires, a wrong
answer yields FAIL, and a correct answer yields SUCCESS exactly when the
classifier probability is below the threshold (verdict "human"). -/
theorem verify_fusion_no_rule (st : DbState) (tok ans : String) (nowMs : Int)
    (m : MetaInfo) (stats : SeqStats) (p thr : ℚ) (ks3 : Bool)
    (s : CaptchaSessionRow)
    (hfind : st.sessions.find? (fun r => r.clientToken == tok) = some s)
    (hnolog : st.logs.any (fun l2 => l2.sessionId == s.id) = false)
    (hlat : nowMs - s.createdAtMs ≤ captchaTimeoutMs)
    (hdev : m.device ≠ some "touch") :
    ∃ r, (verifyCaptchaAnswer st tok ans nowMs none (some m) true
        (run_behavior_verification true (some stats) p thr) ks3).resp = .ok r ∧
      (r.result = "success" ↔ ans = s.problemAnswer ∧ p < thr) ∧
      (ans ≠ s.problemAnswer → r.result = "fail") := by
  rw [verifyCaptchaAnswer_scored_eq st tok ans nowMs (some m) true _ ks3 s hfind hnolog hlat,
    verifyScored_classifier_resp st s ans _ m stats p thr ks3 hdev]
  refine ⟨_, rfl, ?_, ?_⟩
  · by_cases hp : thr ≤ p <;> by_cases hc : ans = s.problemAnswer
    · simp [verifyDecision, hp, hc, CaptchaResult.value, not_lt.mpr hp]
    · simp [verifyDecision, hp, hc, CaptchaResult.value]
    · simp [verifyDecision, hp, hc, CaptchaResult.value, not_le.mp hp]
    · simp [verifyDecision, hp, hc, CaptchaResult.value]
  · intro hc
    by_cases hp : thr ≤ p <;> simp [verifyDecision, hp, hc, CaptchaResult.value]

/-- Witness for C3 (scenario A): correct answer "cat", latency 2 s, bot
probability 0.2 below threshold 0.5 — the result is success. -/
theorem verify_fusion_no_rule_witness :
    ∃ r, (verifyCaptchaAnswer stFresh "tok" "cat" 2000 none (some metaMouse) true
        (run_behavior_verification true (some statsA) (1 / 5) (1 / 2)) false).resp = .ok r ∧
      r.result = "success" := by
  obtain ⟨r, h1, h2, _⟩ := verify_fusion_no_rule stFresh "tok" "cat" 2000 metaMouse statsA
    (1 / 5) (1 / 2) false sessW (by decide) (by decide) (by decide) (by simp [metaMouse])
  exact ⟨r, h1, h2.mpr ⟨rfl, by norm_num⟩⟩

/-- C4 counterexample: with no behavior data at all (no ML signal), a verify
with the correct answer and no fired rule resolves FAIL, not SUCCESS — the
orchestrator demands an explicit "human" verdict for success. -/
theorem verify_no_ml_correct_answer_fails :
    (verifyCaptchaAnswer stFresh "tok" "cat" 2000 none none false brNone false).resp =
      .ok { result := "fail", message := "캡챠 검증에 실패했습니다.",
            confidence := none, verdict := none } := by
  rfl

/-- C4 (amended): when the classifier produces no verdict (no chunk
metadata, no chunk events, or a not-ok behavior result) and the device rule
does not fire, verification still completes with a terminal 200 response,
but a correct answer resolves FAIL rather than SUCCESS: the degraded mode
requires an explicit human verdict and is not "rules plus answer-correctness
only". -/
theorem verify_no_ml_signal_fails (st : DbState) (tok ans : String)
    (nowMs : Int) (sm : Option MetaInfo) (ch : Bool) (br : BehaviorResult)
    (ks3 : Bool) (s : CaptchaSessionRow)
    (hfind : st.sessions.find? (fun r => r.clientToken == tok) = some s)
    (hnolog : st.logs.any (fun l2 => l2.sessionId == s.id) = false)
    (hlat : nowMs - s.createdAtMs ≤ captchaTimeoutMs)
    (hnoml : sm = none ∨ ch = false ∨ br.ok = false)
    (hdev : check_device_type sm = none)
    (hcorrect : ans = s.problemAnswer) :
    (verifyCaptchaAnswer st tok ans nowMs none sm ch br ks3).resp =
      .ok { result := "fail", message := "캡챠 검증에 실패했습니다.",
            confidence := none, verdict := none } := by
  rw [verifyCaptchaAnswer_scored_eq st tok ans nowMs sm ch br ks3 s hfind hnolog hlat]
  unfold verifyScored
  rw [hdev]
  rcases hnoml with h | h | h
  · subst h
    simp [verifyDecision, hcorrect, CaptchaResult.value]
  · subst h
    simp [verifyDecision, hcorrect, CaptchaResult.value]
  · simp [h, verifyDecision, hcorrect, CaptchaResult.value, ite_self]

/-- Witness for C4: behavior chunks are present but the model failed to
load (`ok` false, so no verdict) — a correct answer still comes back FAIL. -/
theorem verify_no_ml_signal_fails_witness :
    (verifyCaptchaAnswer stFresh "tok" "cat" 2000 none (some metaMouse) true brNone false).resp =
      .ok { result := "fail", message := "캡챠 검증에 실패했습니다.",
            confidence := none, verdict := none } :=
  verify_no_ml_signal_fails stFresh "tok" "cat" 2000 (some metaMouse) true brNone false
    sessW (by decide) (by decide) (by decide) (Or.inr (Or.inr rfl))
    (by simp [check_device_type, metaMouse]) rfl

/-- C5 counterexample: a verification whose behavioral statistics show a
canvas out-of-bounds rate of exactly 100% still resolves SUCCESS (verdict
"human") when the answer is correct and the classifier probability is below
threshold — nothing forces FAIL/bot, because `verifyCaptchaAnswer` never
invokes `check_no_scratching`. -/
theorem verify_oob_full_can_succeed :
    brStatOobCanvas (run_behavior_verification true (some statsOob1) (1 / 5) (1 / 2)) = 1 ∧
    (verifyCaptchaAnswer stFresh "tok" "cat" 2000 none (some metaMouse) true
        (run_behavior_verification true (some statsOob1) (1 / 5) (1 / 2)) false).resp =
      .ok { result := "success", message := "캡챠 검증에 성공했습니다.",
            confidence := some (1 / 5), verdict := some "human" } := by
  constructor
  · simp [run_behavior_verification, brStatOobCanvas, statsOob1]
  · rw [verifyCaptchaAnswer_scored_eq stFresh "tok" "cat" 2000 (some metaMouse) true _ false
        sessW (by decide) (by decide) (by decide),
      verifyScored_classifier_resp stFresh sessW "cat" _ metaMouse statsOob1 (1 / 5) (1 / 2)
        false (by simp [metaMouse])]
    have hp : ¬ (1 : ℚ) / 2 ≤ 1 / 5 := by norm_num
    have hq : ((5 : ℚ))⁻¹ < 2⁻¹ := by norm_num
    simp [verifyDecision, hp, hq, CaptchaResult.value, sessW]

/-- C5 (amended): `check_no_scratching` does map a 100% canvas OOB rate to a
FAIL response with verdict "bot" and a log carrying `ml_is_bot = true` — but
the verify orchestrator never invokes it, and on such statistics its result
follows the answer/classifier fusion (a concrete such verification
succeeds). -/
theorem check_no_scratching_oob_full (s : CaptchaSessionRow) (latencyMs : Int)
    (br : BehaviorResult) (conf : Option ℚ) (st : DbState)
    (h : brStatOobCanvas br = 1) :
    check_no_scratching s latencyMs br conf st =
      some ({ result := "fail", message := "스크래치 없이 정답을 클릭했습니다.",
              confidence := conf, verdict := some "bot" },
            { st with
                logs := st.logs ++
                  [{ sessionId := s.id, keyId := s.keyId, result := .FAIL,
                     latency_ms := latencyMs, is_correct := false,
                     ml_confidence := conf, ml_is_bot := some true }],
                usage := st.usage ++
                  [{ keyId := s.keyId, result := "fail", latency_ms := latencyMs }] }) ∧
    (verifyCaptchaAnswer stFresh "tok" "cat" 2000 none (some metaMouse) true
        (run_behavior_verification true (some statsOob1) (1 / 5) (1 / 2)) false).resp =
      .ok { result := "success", message := "캡챠 검증에 성공했습니다.",
            confidence := some (1 / 5), verdict := some "human" } := by
  constructor
  · simp [check_no_scratching, h, CaptchaResult.value]
  · rw [verifyCaptchaAnswer_scored_eq stFresh "tok" "cat" 2000 (some metaMouse) true _ false
        sessW (by decide) (by decide) (by decide),
      verifyScored_classifier_resp stFresh sessW "cat" _ metaMouse statsOob1 (1 / 5) (1 / 2)
        false (by simp [metaMouse])]
    have hp : ¬ (1 : ℚ) / 2 ≤ 1 / 5 := by norm_num
    have hq : ((5 : ℚ))⁻¹ < 2⁻¹ := by norm_num
    simp [verifyDecision, hp, hq, CaptchaResult.value, sessW]

/-- Witness for C5: the no-scratching rule fires on a concrete behavior
result whose canvas OOB rate is 1. -/
theorem check_no_scratching_oob_full_witness :
    (check_no_scratching sessW 2000
        (run_behavior_verification true (some statsOob1) (1 / 5) (1 / 2))
        (some (1 / 5)) stFresh).isSome = true := by
  have h := check_no_scratching_oob_full sessW 2000
    (run_behavior_verification true (some statsOob1) (1 / 5) (1 / 2)) (some (1 / 5)) stFresh
    (by simp [run_behavior_verification, brStatOobCanvas, statsOob1])
  rw [h.1]
  rfl

/-- C6 counterexample: a verify whose elapsed time (100 ms) is far below the
0.5 s timing floor still resolves SUCCESS when the answer is correct and the
behavior is classified human — `verifyCaptchaAnswer` never invokes
`check_time_constraint`, so nothing forces FAIL. -/
theorem verify_below_floor_can_succeed :
    ((100 : Int) - sessW.createdAtMs < 500) ∧
    (verifyCaptchaAnswer stFresh "tok" "cat" 100 none (some metaMouse) true
        (run_behavior_verification true (some statsA) (1 / 5) (1 / 2)) false).resp =
      .ok { result := "success", message := "캡챠 검증에 성공했습니다.",
            confidence := some (1 / 5), verdict := some "human" } := by
  constructor
  · decide
  · rw [verifyCaptchaAnswer_scored_eq stFresh "tok" "cat" 100 (some metaMouse) true _ false
        sessW (by decide) (by decide) (by decide),
      verifyScored_classifier_resp stFresh sessW "cat" _ metaMouse statsA (1 / 5) (1 / 2)
        false (by simp [metaMouse])]
    have hp : ¬ (1 : ℚ) / 2 ≤ 1 / 5 := by norm_num
    have hq : ((5 : ℚ))⁻¹ < 2⁻¹ := by norm_num
    simp [verifyDecision, hp, hq, CaptchaResult.value, sessW]

/-- C6 (amended): `check_time_constraint` does map a latency below 500 ms to
a FAIL response with a FAIL log — but the verify orchestrator never invokes
it, and a below-floor verify with a correct answer and human-classified
behavior resolves SUCCESS (a concrete such verification succeeds). -/
theorem check_time_constraint_below_floor (s : CaptchaSessionRow)
    (latencyMs : Int) (st : DbState) (h : latencyMs < 500) :
    check_time_constraint s latencyMs st =
      some ({ result := "fail", message := "너무 빠르게 캡챠를 시도했습니다.",
              confidence := none, verdict := none },
            { st with
                logs := st.logs ++
                  [{ sessionId := s.id, keyId := s.keyId, result := .FAIL,
                     latency_ms := latencyMs, is_correct := false,
                     ml_confidence := none, ml_is_bot := none }],
                usage := st.usage ++
                  [{ keyId := s.keyId, result := "fail", latency_ms := latencyMs }] }) ∧
    (verifyCaptchaAnswer stFresh "tok" "cat" 100 none (some metaMouse) true
        (run_behavior_verification true (some statsA) (1 / 5) (1 / 2)) false).resp =
      .ok { result := "success", message := "캡챠 검증에 성공했습니다.",
            confidence := some (1 / 5), verdict := some "human" } := by
  constructor
  · simp [check_time_constraint, h, CaptchaResult.value]
  · rw [verifyCaptchaAnswer_scored_eq stFresh "tok" "cat" 100 (some metaMouse) true _ false
        sessW (by decide) (by decide) (by decide),
      verifyScored_classifier_resp stFresh sessW "cat" _ metaMouse statsA (1 / 5) (1 / 2)
        false (by simp [metaMouse])]
    have hp : ¬ (1 : ℚ) / 2 ≤ 1 / 5 := by norm_num
    have hq : ((5 : ℚ))⁻¹ < 2⁻¹ := by norm_num
    simp [verifyDecision, hp, hq, CaptchaResult.value, sessW]

/-- Witness for C6: the timing-floor rule fires at a concrete latency of
100 ms. -/
theorem check_time_constraint_below_floor_witness :
    (check_time_constraint sessW 100 stFresh).isSome = true := by
  have h := check_time_constraint_below_floor sessW 100 stFresh (by decide)
  rw [h.1]
  rfl

/-- C7: issuing a problem answers 402 whenever the caller's token balance is
at most 0; every error path returns the store unchanged (full rollback); and
a successful issue commits exactly the debit of one token, the new session
and the request-counter increment, atomically. -/
theorem generate_quota_and_atomicity (st : DbState) (apiKey : ApiKeyRow)
    (userFound : Bool) (selectedProblem : Option ProblemRow)
    (s3BaseUrl : Option String) (newSessionId : Nat) (clientToken : String)
    (nowMs : Int) (shuffledOptions : List String) (envTest : Bool) :
    (st.userToken ≤ 0 →
      generateCaptchaProblem st apiKey userFound selectedProblem s3BaseUrl
          newSessionId clientToken nowMs shuffledOptions envTest =
        (.error { status := 402, detail := "API 토큰이 부족합니다." }, st)) ∧
    (userFound = true → 0 < st.userToken → selectedProblem = none →
      generateCaptchaProblem st apiKey userFound selectedProblem s3BaseUrl
          newSessionId clientToken nowMs shuffledOptions envTest =
        (.error { status := 503, detail := "활성화된 캡차 문제가 없습니다." }, st)) ∧
    (∀ e, (generateCaptchaProblem st apiKey userFound selectedProblem s3BaseUrl
          newSessionId clientToken nowMs shuffledOptions envTest).1 = .error e →
      (generateCaptchaProblem st apiKey userFound selectedProblem s3BaseUrl
          newSessionId clientToken nowMs shuffledOptions envTest).2 = st) ∧
    (∀ r, (generateCaptchaProblem st apiKey userFound selectedProblem s3BaseUrl
          newSessionId clientToken nowMs shuffledOptions envTest).1 = .ok r →
      ∃ p, selectedProblem = some p ∧
        (generateCaptchaProblem st apiKey userFound selectedProblem s3BaseUrl
            newSessionId clientToken nowMs shuffledOptions envTest).2 =
          { st with
              userToken := st.userToken - 1,
              sessions := st.sessions ++
                [{ id := newSessionId, keyId := apiKey.id, clientToken := clientToken,
                   createdAtMs := nowMs, problemAnswer := p.answer }],
              totalRequests := st.totalRequests + 1 }) := by
  unfold generateCaptchaProblem
  by_cases hu : userFound = false ∨ st.userToken ≤ 0
  · rw [if_pos hu]
    refine ⟨fun _ => rfl, fun h1 h2 _ => ?_, fun e _ => rfl,
      fun r hr => Except.noConfusion hr⟩
    rcases hu with h | h
    · rw [h1] at h
      exact Bool.noConfusion h
    · omega
  · rw [if_neg hu]
    push_neg at hu
    obtain ⟨hu1, hu2⟩ := hu
    cases selectedProblem with
    | none =>
      exact ⟨fun h => absurd h (not_le.mpr hu2), fun _ _ _ => rfl, fun e _ => rfl,
        fun r hr => Except.noConfusion hr⟩
    | some p =>
      cases s3BaseUrl with
      | none =>
        exact ⟨fun h => absurd h (not_le.mpr hu2), fun _ _ hc => Option.noConfusion hc,
          fun e _ => rfl, fun r hr => Except.noConfusion hr⟩
      | some base =>
        exact ⟨fun h => absurd h (not_le.mpr hu2), fun _ _ hc => Option.noConfusion hc,
          fun e he => Except.noConfusion he, fun r _ => ⟨p, rfl, rfl⟩⟩

/-- Witness for C7: with a balance of 0 the issue call answers 402 and
leaves the store untouched. -/
theorem generate_quota_and_atomicity_witness :
    generateCaptchaProblem
        { userToken := 0, sessions := [], logs := [], totalRequests := 0, usage := [] }
        { id := 3, userId := 9 } true none none 1 "newtok" 0 [] false =
      (.error { status := 402, detail := "API 토큰이 부족합니다." },
       { userToken := 0, sessions := [], logs := [], totalRequests := 0, usage := [] }) :=
  (generate_quota_and_atomicity
    { userToken := 0, sessions := [], logs := [], totalRequests := 0, usage := [] }
    { id := 3, userId := 9 } true none none 1 "newtok" 0 [] false).1 (by decide)

/-- C10: in every scored (non-timeout) verification the persisted log's
`ml_is_bot` equals the boolean test `verdict == "bot"` — in particular a
missing verdict is stored as `false`, indistinguishable from an explicit
human verdict — while a timeout log stores `ml_is_bot` as null. -/
theorem verify_ml_is_bot_flag (st : DbState) (tok ans : String) (nowMs : Int)
    (sm : Option MetaInfo) (ch : Bool) (br : BehaviorResult) (ks3 : Bool)
    (s : CaptchaSessionRow)
    (hfind : st.sessions.find? (fun r => r.clientToken == tok) = some s)
    (hnolog : st.logs.any (fun l2 => l2.sessionId == s.id) = false) :
    (captchaTimeoutMs < nowMs - s.createdAtMs →
      (verifyCaptchaAnswer st tok ans nowMs none sm ch br ks3).state.logs =
        st.logs ++ [timeoutLogRow s (nowMs - s.createdAtMs)] ∧
      (timeoutLogRow s (nowMs - s.createdAtMs)).ml_is_bot = none) ∧
    (nowMs - s.createdAtMs ≤ captchaTimeoutMs →
      ∃ r ℓ, (verifyCaptchaAnswer st tok ans nowMs none sm ch br ks3).resp = .ok r ∧
        (verifyCaptchaAnswer st tok ans nowMs none sm ch br ks3).state.logs =
          st.logs ++ [ℓ] ∧
        ℓ.ml_is_bot = some (r.verdict == some "bot") ∧
        (r.verdict = none → ℓ.ml_is_bot = some false)) := by
  constructor
  · intro ht
    unfold verifyCaptchaAnswer
    rw [hfind]
    simp only [hnolog, Bool.false_eq_true, if_false]
    unfold verifyLocked
    dsimp only
    rw [if_pos ht]
    exact ⟨rfl, rfl⟩
  · intro hlat
    rw [verifyCaptchaAnswer_scored_eq st tok ans nowMs sm ch br ks3 s hfind hnolog hlat]
    unfold verifyScored
    refine ⟨_, _, rfl, rfl, rfl, fun hv => ?_⟩
    dsimp only at hv ⊢
    rw [hv]
    rfl

/-- Witness for C10: a scored verification with no verdict at all persists
`ml_is_bot = some false`. -/
theorem verify_ml_is_bot_flag_witness :
    ∃ ℓ, (verifyCaptchaAnswer stFresh "tok" "cat" 2000 none none false brNone false).state.logs =
        stFresh.logs ++ [ℓ] ∧ ℓ.ml_is_bot = some false := by
  obtain ⟨r, ℓ, h1, h2, h3, h4⟩ := (verify_ml_is_bot_flag stFresh "tok" "cat" 2000 none false
    brNone false sessW (by decide) (by decide)).2 (by decide)
  have h0 : (verifyCaptchaAnswer stFresh "tok" "cat" 2000 none none false brNone false).resp =
      .ok { result := "fail", message := "캡챠 검증에 실패했습니다.",
            confidence := none, verdict := none } := rfl
  rw [h0] at h1
  injection h1 with h1
  refine ⟨ℓ, h2, h4 ?_⟩
  rw [← h1]

end Scratcha
